import Mathlib

/-!
Verification of `PathRAG/llm.py` (PathRAG.NET repository, Python source).

This file gives a shallow embedding of the module's dispatch, retry,
streaming, post-processing, environment-configuration and embedding logic,
and proves/refutes the specification claims about it.

Conventions of the embedding:
* Python dicts are association lists `PyDict` (insertion ordered, keys
  unique in any dict produced by Python itself).
* Python values relevant to the claims are the inductive `Val`
  (`None`, booleans, strings, integers); Python truthiness is `truthy`.
* Python's `%` on integers raises `ZeroDivisionError` for modulus 0;
  `pyMod` returns `Option Nat` accordingly.
* Exceptions are `Except` results; an async function that raises is a
  function returning `Except`.
-/

namespace PathRAG

/-- A Python value, as far as the claims need to distinguish values. -/
inductive Val where
  | vNone : Val
  | vBool : Bool → Val
  | vStr : String → Val
  | vInt : Int → Val
  deriving DecidableEq, Repr

deriving instance DecidableEq for Except

/-- A Python dict as an ordered association list. -/
abbrev PyDict := List (String × Val)

/-- Lookup of a key in a dict (first match, as in a dict with unique keys). -/
def dlookup (k : String) : PyDict → Option Val
  | [] => none
  | (k', v) :: rest => if k' = k then some v else dlookup k rest

/-- The keys of a dict, in order. -/
def dictKeys (d : PyDict) : List String := d.map Prod.fst

/-- `d.pop(k, None)` on a dict: the dict with every entry for `k` removed
(a Python dict holds at most one). -/
def popKey (k : String) (d : PyDict) : PyDict :=
  d.filter (fun kv => kv.1 ≠ k)

/-- A Python call `dict(**...)` collecting the given keyword arguments in
order: it raises `TypeError: dict() got multiple values for keyword
argument ...` when two of them share a key, else builds the dict. -/
def dictCall (entries : PyDict) : Option PyDict :=
  if (dictKeys entries).Nodup then some entries else none

/-- Python `%` on naturals: raises `ZeroDivisionError` (modelled `none`)
when the modulus is zero. -/
def pyMod (a b : Nat) : Option Nat :=
  if b = 0 then none else some (a % b)

/-- Python truthiness of a `Val` (`if v:`). -/
def truthy : Val → Bool
  | .vNone => false
  | .vBool b => b
  | .vStr s => decide (s ≠ "")
  | .vInt n => decide (n ≠ 0)

/-- An exception a provider call or generation function may raise.
The first three constructors are the openai exception classes named in
the retry decorators (llm.py lines 7-13, 43): `RateLimitError`,
`APIConnectionError`, `Timeout`; `other` is any other exception. -/
inductive PyError where
  | rateLimitError
  | apiConnectionError
  | timeout
  | other : String → PyError
  deriving DecidableEq, Repr

/-- The `Model` pydantic class (llm.py lines 207-234): a generation
function paired with its fixed keyword arguments.  Generation functions
are identified by a tag `genFunc : Nat`; the dispatcher only stores and
forwards them, so their identity is all that matters. -/
structure Model where
  genFunc : Nat
  kwargs : PyDict
  deriving DecidableEq, Repr

instance : Inhabited Model := ⟨⟨0, []⟩⟩

/-- The mutable state of a `MultiModel` (llm.py lines 262-264):
the ordered descriptor list and the round-robin cursor. -/
structure MultiModelState where
  models : List Model
  currentModel : Nat
  deriving DecidableEq, Repr

namespace MultiModel

/-- `MultiModel.__init__` (llm.py lines 262-264): cursor starts at 0. -/
def init (models : List Model) : MultiModelState :=
  ⟨models, 0⟩

/-- `MultiModel._next_model` (llm.py lines 266-268):
`self._current_model = (self._current_model + 1) % len(self._models)`
then `return self._models[self._current_model]`.
`% 0` raises `ZeroDivisionError` before the assignment, modelled `none`. -/
def nextModel (s : MultiModelState) : Option (MultiModelState × Model) :=
  match pyMod (s.currentModel + 1) s.models.length with
  | none => none
  | some i =>
      if h : i < s.models.length then
        some ({ s with currentModel := i }, s.models.get ⟨i, h⟩)
      else
        none

/-- The descriptor `_next_model` would select on state `s` (ignoring the
state update). -/
def selectedModel (s : MultiModelState) : Option Model :=
  (nextModel s).map Prod.snd

/-- The ways a dispatch can fail before the generation function returns. -/
inductive DispatchError where
  | zeroDivision
  | typeErrorDuplicateKw
  deriving DecidableEq, Repr

/-- The keyword arguments `llm_model_func` hands to the selected
descriptor's generation function, together with that function's tag. -/
structure Invocation where
  genFunc : Nat
  args : PyDict
  deriving DecidableEq, Repr

/-- `MultiModel.llm_model_func` (llm.py lines 270-285) up to the point the
generation function is invoked: pops the reserved keys `model`,
`keyword_extraction`, `mode` from the caller's options, advances the
cursor via `_next_model`, and builds
`dict(prompt=..., system_prompt=..., history_messages=..., **kwargs,
**next_model.kwargs)`.  The returned state is the dispatcher state after
the call (the cursor was already advanced when `dict(...)` or the
generation function raises). -/
def llm_model_func (s : MultiModelState) (prompt system_prompt history_messages : Val)
    (kwargs : PyDict) : MultiModelState × Except DispatchError Invocation :=
  let kwargs := popKey "model" kwargs
  let kwargs := popKey "keyword_extraction" kwargs
  let kwargs := popKey "mode" kwargs
  match nextModel s with
  | none => (s, .error .zeroDivision)
  | some (s', m) =>
      let entries : PyDict :=
        [("prompt", prompt), ("system_prompt", system_prompt),
         ("history_messages", history_messages)] ++ kwargs ++ m.kwargs
      (s', match dictCall entries with
           | none => .error .typeErrorDuplicateKw
           | some args => .ok ⟨m.genFunc, args⟩)

/-- A dispatch failure: either before the generation call
(`DispatchError`) or raised by the generation function itself. -/
inductive CallError where
  | dispatch : DispatchError → CallError
  | gen : PyError → CallError
  deriving DecidableEq, Repr

/-- `llm_model_func` including the final `await next_model.gen_func(**args)`:
`gen` maps a generation-function tag and its arguments to a result or a
raised exception.  The state component is the dispatcher state observable
after the call, successful or not. -/
def llm_model_func_exec (gen : Nat → PyDict → Except PyError Val)
    (s : MultiModelState) (prompt system_prompt history_messages : Val)
    (kwargs : PyDict) : MultiModelState × Except CallError Val :=
  match llm_model_func s prompt system_prompt history_messages kwargs with
  | (s', .error e) => (s', .error (.dispatch e))
  | (s', .ok inv) =>
      match gen inv.genFunc inv.args with
      | .ok v => (s', .ok v)
      | .error e => (s', .error (.gen e))

/-- The arguments of one call to `llm_model_func`. -/
structure CallArgs where
  prompt : Val
  system_prompt : Val
  history_messages : Val
  kwargs : PyDict

/-- The dispatcher state after the first `n` of a sequence of sequential
calls `args 1, args 2, ...` to `llm_model_func`. -/
def runCalls (s : MultiModelState) (args : Nat → CallArgs) : Nat → MultiModelState
  | 0 => s
  | n + 1 =>
      let a := args (n + 1)
      (llm_model_func (runCalls s args n) a.prompt a.system_prompt
        a.history_messages a.kwargs).1

/-- The result of the `k`-th call (1-based) in the sequence. -/
def kthCall (s : MultiModelState) (args : Nat → CallArgs) (k : Nat) :
    MultiModelState × Except DispatchError Invocation :=
  let a := args k
  llm_model_func (runCalls s args (k - 1)) a.prompt a.system_prompt
    a.history_messages a.kwargs

/-- The reserved-key stripping `llm_model_func` performs on the caller's
options (llm.py lines 273-275), as one function. -/
def stripReserved (kw : PyDict) : PyDict :=
  popKey "mode" (popKey "keyword_extraction" (popKey "model" kw))

end MultiModel

/-! ### The retry decorator (llm.py lines 40-44, 109-113, 139-143)

All three wrappers carry the identical tenacity decorator
`@retry(stop=stop_after_attempt(3), wait=wait_exponential(multiplier=1,
min=4, max=10), retry=retry_if_exception_type((RateLimitError,
APIConnectionError, Timeout)))`. -/

/-- `retry_if_exception_type((RateLimitError, APIConnectionError, Timeout))`:
which raised exceptions trigger a retry. -/
def isTransient : PyError → Bool
  | .rateLimitError => true
  | .apiConnectionError => true
  | .timeout => true
  | .other _ => false

/-- tenacity `wait_exponential(multiplier, min, max)`: the sleep scheduled
after attempt number `n` (1-based) fails, `max(min, min(multiplier *
2^(n-1), max))`. -/
def waitExponential (multiplier minW maxW n : Nat) : Nat :=
  max minW (min (multiplier * 2 ^ (n - 1)) maxW)

/-- Outcome of a retried call: a value, an exception re-raised at once on
a non-retried attempt, or the final exception surfaced (inside tenacity's
`RetryError`) once the attempt cap is reached. -/
inductive RetryOutcome (α : Type) where
  | ok : α → RetryOutcome α
  | raised : PyError → RetryOutcome α
  | exhausted : PyError → RetryOutcome α
  deriving DecidableEq, Repr

/-- The tenacity retry loop: `provider n` is the outcome of the `n`-th
attempt (1-based) of the wrapped call, `fuel` the number of retries still
permitted by the stop condition.  Returns (attempts made, sleeps taken
between attempts, final outcome). -/
def retryLoop (provider : Nat → Except PyError α) :
    Nat → Nat → Nat × List Nat × RetryOutcome α
  | n, 0 =>
      match provider n with
      | .ok a => (1, [], .ok a)
      | .error e =>
          if isTransient e then (1, [], .exhausted e) else (1, [], .raised e)
  | n, fuel + 1 =>
      match provider n with
      | .ok a => (1, [], .ok a)
      | .error e =>
          if isTransient e then
            let w := waitExponential 1 4 10 n
            let r := retryLoop provider (n + 1) fuel
            (r.1 + 1, w :: r.2.1, r.2.2)
          else (1, [], .raised e)

/-- The decorator as configured in llm.py: `stop_after_attempt(3)` allows
2 retries after the first attempt, with the exponential wait above. -/
def retryCall (provider : Nat → Except PyError α) :
    Nat × List Nat × RetryOutcome α :=
  retryLoop provider 1 2

/-! ### Streaming (llm.py lines 144-185) -/

/-- One streamed chunk's `delta` (llm.py lines 183-184): `content = some s`
when the delta dict has a `"content"` key holding text `s`, `none` when
the delta has no `"content"` key. -/
structure Delta where
  content : Option String
  deriving DecidableEq, Repr

/-- The yield loop of `azure_openai_complete_if_cache_stream` (llm.py
lines 179-185): for each chunk, `if "content" in delta: yield
delta["content"]`. -/
def streamFragments (deltas : List Delta) : List String :=
  deltas.filterMap Delta.content

/-- Concatenation of a fragment sequence. -/
def concatFragments : List String → String
  | [] => ""
  | s :: rest => s ++ concatFragments rest

/-- The provider's full emitted text across a chunk sequence: each delta
contributes its textual content, a content-less delta contributes
nothing. -/
def providerFullText (deltas : List Delta) : String :=
  concatFragments (deltas.map (fun d => d.content.getD ""))

/-! ### Environment configuration (llm.py lines 55-66, 121-132, 155-166)

`azure_openai_complete_if_cache`, `azure_openai_embedding` and
`azure_openai_complete_if_cache_stream` share the same prologue: write
supplied credentials into `os.environ`, then build the client from
`os.getenv`. -/

/-- The three process-environment variables the module touches. -/
structure Env where
  azureOpenaiApiKey : Option String
  azureOpenaiEndpoint : Option String
  azureOpenaiApiVersion : Option String
  deriving DecidableEq, Repr

/-- Python truthiness of an optional-string argument defaulting to `None`
(`if api_key:`): `None` and `""` are falsy. -/
def pyTruthyStr : Option String → Bool
  | none => false
  | some s => decide (s ≠ "")

/-- The constructor arguments handed to `AsyncAzureOpenAI` (llm.py lines
62-66): the values of the three `os.getenv` reads. -/
structure ClientConfig where
  azureEndpoint : Option String
  apiKey : Option String
  apiVersion : Option String
  deriving DecidableEq, Repr

/-- Lines 55-60 (and the identical 121-126, 155-160): conditional
environment writes. -/
def applyEnvOverrides (env : Env) (api_key base_url api_version : Option String) :
    Env :=
  let env1 := if pyTruthyStr api_key then
    { env with azureOpenaiApiKey := api_key } else env
  let env2 := if pyTruthyStr base_url then
    { env1 with azureOpenaiEndpoint := base_url } else env1
  if pyTruthyStr api_version then
    { env2 with azureOpenaiApiVersion := api_version } else env2

/-- Lines 55-66: the environment after the writes (which persists after
the call returns — nothing ever restores it) and the client configuration
read back from it. -/
def azureClientSetup (env : Env) (api_key base_url api_version : Option String) :
    Env × ClientConfig :=
  let env1 := applyEnvOverrides env api_key base_url api_version
  (env1, ⟨env1.azureOpenaiEndpoint, env1.azureOpenaiApiKey, env1.azureOpenaiApiVersion⟩)

/-! ### Embedding (llm.py lines 108-137) -/

/-- `wrap_embedding_func_with_attrs(embedding_dim=1536, ...)` (llm.py
line 108): the configured embedding dimension. -/
def embedding_dim : Nat := 1536

/-- One entry of the provider's embedding response `response.data`. -/
structure EmbeddingDatum where
  embedding : List Float

/-- The provider's embedding response as far as line 137 uses it. -/
structure EmbeddingResponse where
  data : List EmbeddingDatum

/-- Line 137: `np.array([dp.embedding for dp in response.data])`, the
matrix returned by `azure_openai_embedding` on a successful provider
response. -/
def azure_openai_embedding_matrix (resp : EmbeddingResponse) : List (List Float) :=
  resp.data.map EmbeddingDatum.embedding

/-! ### Keyword-extraction post-processing (llm.py lines 86-99) -/

/-- The opening-brace character, `\x7b`. -/
def lbrace : Char := Char.ofNat 123

/-- The closing-brace character, `\x7d`. -/
def rbrace : Char := Char.ofNat 125

/-- Modelled from the spec: `locate_json_string_body_from_string` lives in
`PathRAG/utils.py`, which is not among the provided sources.  Per the
spec (§4.3) it locates an embedded JSON object within free text and
returns that substring, or `None` when there is none; the substring is
the maximal brace-delimited span (first opening brace through last
closing brace, at least one character between). -/
def locate_json_string_body_from_string (s : String) : Option String :=
  let cs := s.toList
  match cs.findIdx? (fun c => c = lbrace), (cs.reverse.findIdx? (fun c => c = rbrace)) with
  | some i, some jr =>
      let j := cs.length - 1 - jr
      if i + 2 ≤ j then some (String.mk ((cs.drop i).take (j - i + 1))) else none
  | _, _ => none

/-- `azure_openai_complete` (llm.py lines 86-99) after the underlying
`azure_openai_complete_if_cache` call produced `completion`.
`keyword_extraction` is the value bound to the explicit
`keyword_extraction=False` parameter; `kwargs` is what `**kwargs`
collected (by Python's binding rules it can never hold the key
`"keyword_extraction"` — a keyword argument of that name binds to the
explicit parameter).  Line 89 rebinds the parameter to
`kwargs.pop("keyword_extraction", None)` before line 97 tests it.
The result is `vStr` of the returned text, or `vNone` when the
post-processor finds no JSON body (Python returns `None` there). -/
def azure_openai_complete (keyword_extraction : Val) (kwargs : PyDict)
    (completion : String) : Val :=
  let keyword_extraction := (dlookup "keyword_extraction" kwargs).getD .vNone
  if truthy keyword_extraction then
    match locate_json_string_body_from_string completion with
    | some j => .vStr j
    | none => .vNone
  else .vStr completion

/-- The spec's §8 keyword-extraction example input. -/
def c3ExampleText : String :=
  "Here are the terms: \x7b\"high_level_keywords\": [\"a\"], \"low_level_keywords\": [\"b\"]\x7d"

/-- The embedded JSON substring of `c3ExampleText`. -/
def c3ExampleJson : String :=
  "\x7b\"high_level_keywords\": [\"a\"], \"low_level_keywords\": [\"b\"]\x7d"

/-! ## Helper lemmas -/

open MultiModel

theorem string_empty_append (s : String) : "" ++ s = s := rfl

theorem mod_succ_mod (a M : Nat) : (a % M + 1) % M = (a + 1) % M :=
  Nat.ModEq.add_right 1 (Nat.mod_modEq a M)

theorem nextModel_of_pos (s : MultiModelState) (h : 0 < s.models.length) :
    nextModel s =
      some ({ s with currentModel := (s.currentModel + 1) % s.models.length },
        s.models.get ⟨(s.currentModel + 1) % s.models.length, Nat.mod_lt _ h⟩) := by
  have hne : s.models.length ≠ 0 := Nat.pos_iff_ne_zero.mp h
  simp [nextModel, pyMod, hne, Nat.mod_lt _ h]

theorem llm_model_func_fst_of_pos (s : MultiModelState) (p sp hmsg : Val)
    (kw : PyDict) (h : 0 < s.models.length) :
    (llm_model_func s p sp hmsg kw).1 =
      { s with currentModel := (s.currentModel + 1) % s.models.length } := by
  simp [llm_model_func, nextModel_of_pos s h]

theorem runCalls_init_state (models : List Model) (hM : 0 < models.length)
    (args : Nat → CallArgs) (n : Nat) :
    runCalls (init models) args n = ⟨models, n % models.length⟩ := by
  induction n with
  | zero => simp [runCalls, init, Nat.zero_mod]
  | succ n ih =>
      simp only [runCalls]
      rw [ih, llm_model_func_fst_of_pos _ _ _ _ _ hM]
      simp [mod_succ_mod]

theorem llm_model_func_exec_fst (gen : Nat → PyDict → Except PyError Val)
    (s : MultiModelState) (p sp hmsg : Val) (kw : PyDict) :
    (llm_model_func_exec gen s p sp hmsg kw).1 = (llm_model_func s p sp hmsg kw).1 := by
  unfold llm_model_func_exec
  rcases h : llm_model_func s p sp hmsg kw with ⟨s', r⟩
  rcases r with e | inv
  · rfl
  · show (match gen inv.genFunc inv.args with
      | Except.ok v => (s', Except.ok v)
      | Except.error e => (s', Except.error (CallError.gen e))).1 = (s', Except.ok inv).1
    rcases hg : gen inv.genFunc inv.args with e | v <;> rfl

theorem dlookup_eq_none {k : String} {d : PyDict} (h : ∀ kv ∈ d, kv.1 ≠ k) :
    dlookup k d = none := by
  induction d with
  | nil => rfl
  | cons kv rest ih =>
      obtain ⟨k1, v⟩ := kv
      have h1 : k1 ≠ k := h (k1, v) (List.mem_cons_self _ _)
      simp only [dlookup, if_neg h1]
      exact ih fun kv2 hmem => h kv2 (List.mem_cons_of_mem _ hmem)

theorem dlookup_append_left_none {k : String} {a : PyDict} (b : PyDict)
    (h : dlookup k a = none) : dlookup k (a ++ b) = dlookup k b := by
  induction a with
  | nil => rfl
  | cons kv rest ih =>
      obtain ⟨k1, v⟩ := kv
      by_cases hk : k1 = k
      · simp [dlookup, hk] at h
      · simp only [dlookup, if_neg hk, List.cons_append] at h ⊢
        exact ih h

theorem mem_stripReserved {kv : String × Val} {kw : PyDict}
    (h : kv ∈ stripReserved kw) :
    kv.1 ≠ "model" ∧ kv.1 ≠ "keyword_extraction" ∧ kv.1 ≠ "mode" := by
  simp only [stripReserved, popKey, List.mem_filter, decide_eq_true_eq] at h
  tauto

theorem popKey_stripReserved {k : String}
    (hk : k = "model" ∨ k = "keyword_extraction" ∨ k = "mode") (kw : PyDict) :
    popKey k (stripReserved kw) = stripReserved kw := by
  apply List.filter_eq_self.mpr
  intro kv hmem
  have h3 := mem_stripReserved hmem
  rcases hk with rfl | rfl | rfl <;> simp_all

theorem dlookup_stripReserved {k : String}
    (hk : k = "model" ∨ k = "keyword_extraction" ∨ k = "mode") (kw : PyDict) :
    dlookup k (stripReserved kw) = none := by
  apply dlookup_eq_none
  intro kv hmem
  have h3 := mem_stripReserved hmem
  rcases hk with rfl | rfl | rfl <;> tauto

theorem dictCall_eq_some {e args : PyDict} (h : dictCall e = some args) : args = e := by
  unfold dictCall at h
  split at h
  · exact (Option.some.inj h).symm
  · cases h

theorem llm_model_func_ok {s : MultiModelState} {p sp hmsg : Val} {kw : PyDict}
    {inv : Invocation} (h : (llm_model_func s p sp hmsg kw).2 = .ok inv) :
    ∃ s1 m, nextModel s = some (s1, m) ∧
      inv = ⟨m.genFunc,
        [("prompt", p), ("system_prompt", sp), ("history_messages", hmsg)] ++
          stripReserved kw ++ m.kwargs⟩ := by
  rcases hnm : nextModel s with _ | ⟨s1, m⟩
  · simp [llm_model_func, hnm] at h
  · refine ⟨s1, m, rfl, ?_⟩
    simp only [llm_model_func, hnm] at h
    split at h
    · cases h
    · rename_i args heq
      obtain rfl := dictCall_eq_some heq
      exact (Except.ok.inj h).symm

/-! ## Claims -/

/-- C1, counterexample: for a dispatcher over two descriptors (genFunc
tags 0 and 1), the first call after construction invokes the descriptor
with tag 1, not — as the claim's `(k-1) mod M` formula with `k = 1`
demands — the descriptor at index 0. -/
theorem claim_C1_counterexample :
    (kthCall (init [⟨0, []⟩, ⟨1, []⟩]) (fun _ => ⟨.vNone, .vNone, .vNone, []⟩) 1).2 =
      .ok ⟨1, [("prompt", .vNone), ("system_prompt", .vNone), ("history_messages", .vNone)]⟩ ∧
    (1 : Nat) ≠
      (([⟨0, []⟩, ⟨1, []⟩] : List Model).getD ((1 - 1) % 2) default).genFunc := by
  decide

/-- C1, amended: for every dispatcher over `M ≥ 1` descriptors and every
sequence of sequential calls to `llm_model_func`, the `k`-th call
(`k ≥ 1`) selects — and, whenever it reaches the generation function,
invokes — the descriptor at index `k mod M` (the cursor is incremented
before indexing, so the rotation starts at index `1 mod M`, not 0). -/
theorem claim_C1_amended (models : List Model) (args : Nat → CallArgs) (k : Nat)
    (hM : 0 < models.length) (hk : 1 ≤ k) :
    selectedModel (runCalls (init models) args (k - 1)) =
      some (models.getD (k % models.length) default) ∧
    ∀ inv, (kthCall (init models) args k).2 = .ok inv →
      inv.genFunc = (models.getD (k % models.length) default).genFunc := by
  have hrun := runCalls_init_state models hM args (k - 1)
  have hidx : ((k - 1) % models.length + 1) % models.length = k % models.length := by
    rw [mod_succ_mod]
    congr 1
    omega
  have hlt : k % models.length < models.length := Nat.mod_lt _ hM
  have hsel : selectedModel (runCalls (init models) args (k - 1)) =
      some (models.getD (k % models.length) default) := by
    rw [hrun, selectedModel, nextModel_of_pos _ hM]
    simp only [Option.map_some', List.get_eq_getElem, hidx,
      List.getD_eq_getElem _ _ hlt]
  refine ⟨hsel, ?_⟩
  intro inv hok
  have hok2 : (llm_model_func (runCalls (init models) args (k - 1)) (args k).prompt
      (args k).system_prompt (args k).history_messages (args k).kwargs).2 = .ok inv := hok
  obtain ⟨s1, m, hnm, hinv⟩ := llm_model_func_ok hok2
  have hm : m = models.getD (k % models.length) default := by
    have := hsel
    rw [selectedModel, hnm] at this
    simpa using this
  rw [hinv, ← hm]

/-- C1, witness for the amended claim at `M = 2`, `k = 1`: the first call
selects the descriptor at index `1 % 2 = 1`. -/
theorem claim_C1_witness :
    selectedModel (runCalls (init [⟨0, []⟩, ⟨1, []⟩])
      (fun _ => ⟨.vNone, .vNone, .vNone, []⟩) 0) = some ⟨1, []⟩ :=
  (claim_C1_amended [⟨0, []⟩, ⟨1, []⟩] (fun _ => ⟨.vNone, .vNone, .vNone, []⟩) 1
    (by decide) (by decide)).1

/-- C2, counterexample: a dispatcher whose single descriptor fixes
`top_p` and a caller who also passes `top_p`: the claim says the call
proceeds with the descriptor's value, but
`dict(..., **kwargs, **next_model.kwargs)` raises
`TypeError: dict() got multiple values for keyword argument` instead. -/
theorem claim_C2_counterexample :
    (llm_model_func (init [⟨7, [("top_p", .vInt 1)]⟩]) .vNone .vNone .vNone
      [("top_p", .vInt 0)]).2 = .error .typeErrorDuplicateKw := by
  decide

/-- C2, amended: whenever the selected descriptor's fixed arguments and
the caller's remaining (post-strip) options set the same key, the
dispatch does not proceed: it raises `TypeError` (duplicate keyword
argument in the `dict(...)` call). -/
theorem claim_C2_amended (s : MultiModelState) (p sp hmsg : Val) (kw : PyDict)
    (m : Model) (k : String) (hsel : selectedModel s = some m)
    (h1 : k ∈ dictKeys (stripReserved kw)) (h2 : k ∈ dictKeys m.kwargs) :
    (llm_model_func s p sp hmsg kw).2 = .error .typeErrorDuplicateKw := by
  rcases hnm : nextModel s with _ | ⟨s1, m1⟩
  · simp [selectedModel, hnm] at hsel
  · have hm : m1 = m := by simpa [selectedModel, hnm] using hsel
    subst hm
    have hnodup : ¬ (dictKeys ([("prompt", p), ("system_prompt", sp),
        ("history_messages", hmsg)] ++ stripReserved kw ++ m1.kwargs)).Nodup := by
      intro hnd
      rw [dictKeys, List.map_append] at hnd
      have hdisj := (List.nodup_append.mp hnd).2.2
      have hmem1 : k ∈ (([("prompt", p), ("system_prompt", sp),
          ("history_messages", hmsg)] ++ stripReserved kw).map Prod.fst) := by
        rw [List.map_append]
        exact List.mem_append_right _ h1
      exact hdisj hmem1 h2
    have hdc : dictCall ([("prompt", p), ("system_prompt", sp),
        ("history_messages", hmsg)] ++ stripReserved kw ++ m1.kwargs) = none := by
      unfold dictCall
      rw [if_neg hnodup]
    simp only [stripReserved] at hdc
    simp only [llm_model_func, hnm, hdc]

/-- C2, witness for the amended claim: descriptor fixing `temperature`,
caller also passing `temperature` (plus a reserved key that is
stripped). -/
theorem claim_C2_witness :
    (llm_model_func (init [⟨9, [("temperature", .vInt 2)]⟩]) .vNone .vNone .vNone
      [("temperature", .vInt 5), ("mode", .vStr "x")]).2 =
      .error .typeErrorDuplicateKw :=
  claim_C2_amended (init [⟨9, [("temperature", .vInt 2)]⟩]) .vNone .vNone .vNone
    [("temperature", .vInt 5), ("mode", .vStr "x")] ⟨9, [("temperature", .vInt 2)]⟩
    "temperature" (by decide) (by decide) (by decide)

/-- C5: dispatcher-reserved keys in the caller's options never reach the
generation function.  First conjunct: a dispatch behaves exactly as if
the caller had never supplied `model`, `keyword_extraction` or `mode`.
Second conjunct: in any invocation the dispatch builds, the entry for a
reserved key is exactly the selected descriptor's own entry for it
(absent when the descriptor does not fix it). -/
theorem claim_C5 (s : MultiModelState) (p sp hmsg : Val) (kw : PyDict) :
    llm_model_func s p sp hmsg kw = llm_model_func s p sp hmsg (stripReserved kw) ∧
    (∀ inv m k, (llm_model_func s p sp hmsg kw).2 = .ok inv →
      selectedModel s = some m →
      k = "model" ∨ k = "keyword_extraction" ∨ k = "mode" →
      dlookup k inv.args = dlookup k m.kwargs) := by
  constructor
  · have h : popKey "mode" (popKey "keyword_extraction" (popKey "model"
        (stripReserved kw))) = stripReserved kw := by
      rw [popKey_stripReserved (Or.inl rfl), popKey_stripReserved (Or.inr (Or.inl rfl)),
        popKey_stripReserved (Or.inr (Or.inr rfl))]
    simp only [llm_model_func, stripReserved] at h ⊢
    rw [h]
  · intro inv m k hok hsel hk
    obtain ⟨s1, m1, hnm, hinv⟩ := llm_model_func_ok hok
    have hm : m1 = m := by
      rw [selectedModel, hnm] at hsel
      simpa using hsel
    subst hm
    rw [hinv]
    have hbase : dlookup k [("prompt", p), ("system_prompt", sp),
        ("history_messages", hmsg)] = none := by
      apply dlookup_eq_none
      intro kv hmem
      rcases hk with rfl | rfl | rfl <;>
        · simp only [List.mem_cons, List.mem_singleton, List.not_mem_nil] at hmem
          rcases hmem with rfl | rfl | rfl | h0 <;> simp_all
    rw [List.append_assoc, dlookup_append_left_none _ hbase,
      dlookup_append_left_none _ (dlookup_stripReserved hk kw)]

/-- C5, witness: a caller passing `model` and `mode` alongside a real
option; the built invocation's `model` entry is the descriptor's. -/
theorem claim_C5_witness :
    dlookup "model" (Invocation.args ⟨3,
      [("prompt", .vNone), ("system_prompt", .vNone), ("history_messages", .vNone),
       ("temperature", .vInt 1), ("model", .vStr "gpt-4")]⟩) =
      dlookup "model" (Model.kwargs ⟨3, [("model", .vStr "gpt-4")]⟩) :=
  (claim_C5 (init [⟨3, [("model", .vStr "gpt-4")]⟩]) .vNone .vNone .vNone
      [("model", .vStr "override"), ("temperature", .vInt 1), ("mode", .vStr "hybrid")]).2
    ⟨3, [("prompt", .vNone), ("system_prompt", .vNone), ("history_messages", .vNone),
         ("temperature", .vInt 1), ("model", .vStr "gpt-4")]⟩
    ⟨3, [("model", .vStr "gpt-4")]⟩ "model" (by decide) (by decide) (Or.inl rfl)

/-- C3: the claim is right about the intended behavior and the code is
wrong.  Line 89 rebinds the explicit `keyword_extraction` parameter to
`kwargs.pop("keyword_extraction", None)`, and `**kwargs` can never hold
that key (it binds to the explicit parameter), so the rebinding always
yields `None` and the post-processing branch is dead: on the spec's own
§8 example with the flag set, the code returns the raw completion text,
while the post-processor — had it run — would have returned the distinct
embedded JSON substring. -/
theorem claim_C3_code_bug :
    azure_openai_complete (.vBool true) [] c3ExampleText = .vStr c3ExampleText ∧
    locate_json_string_body_from_string c3ExampleText = some c3ExampleJson ∧
    c3ExampleText ≠ c3ExampleJson := by
  decide

/-- C4: the retry policy of the three wrappers (identical decorators).
If every attempt raises a transient exception, exactly 3 attempts are
made, the two inter-attempt delays are `[4, 4]` — non-decreasing and
within `[4, 10]` — and the final transient error is surfaced (wrapped in
tenacity's `RetryError`); a non-transient exception propagates after
exactly 1 attempt with no delay. -/
theorem claim_C4 (errF : Nat → PyError) (hT : ∀ n, isTransient (errF n) = true)
    (e : PyError) (hN : isTransient e = false) :
    retryCall (fun n => (.error (errF n) : Except PyError String)) =
      (3, [4, 4], .exhausted (errF 3)) ∧
    (List.Chain' (fun a b => a ≤ b) [4, 4] ∧ ∀ w ∈ [4, 4], 4 ≤ w ∧ w ≤ 10) ∧
    retryCall (fun _ => (.error e : Except PyError String)) = (1, [], .raised e) := by
  refine ⟨?_, ⟨by simp, by decide⟩, ?_⟩
  · simp [retryCall, retryLoop, hT 1, hT 2, hT 3, waitExponential]
  · simp [retryCall, retryLoop, hN]

/-- C4, witness: every attempt rate-limited (3 attempts, delays 4 and 4),
versus an authentication error (1 attempt, no retry). -/
theorem claim_C4_witness :
    retryCall (fun n => (.error ((fun _ => PyError.rateLimitError) n) :
        Except PyError String)) =
      (3, [4, 4], .exhausted ((fun _ => PyError.rateLimitError) 3)) ∧
    (List.Chain' (fun a b => a ≤ b) [4, 4] ∧ ∀ w ∈ [4, 4], 4 ≤ w ∧ w ≤ 10) ∧
    retryCall (fun _ => (.error (.other "auth") : Except PyError String)) =
      (1, [], .raised (.other "auth")) :=
  claim_C4 (fun _ => .rateLimitError) (fun _ => rfl) (.other "auth") rfl

/-- C6: each yielded fragment is the content of one provider delta,
content-less deltas yield nothing, and the concatenation of the yielded
fragments equals the provider's full emitted text; on the spec's example
(`"Hel"`, a content-less delta, `"lo"`, `" world"`) the stream yields
exactly those three fragments and they concatenate to `"Hello world"`. -/
theorem claim_C6 (deltas : List Delta) :
    concatFragments (streamFragments deltas) = providerFullText deltas ∧
    streamFragments [⟨some "Hel"⟩, ⟨none⟩, ⟨some "lo"⟩, ⟨some " world"⟩] =
      ["Hel", "lo", " world"] ∧
    concatFragments ["Hel", "lo", " world"] = "Hello world" := by
  refine ⟨?_, by decide, by decide⟩
  induction deltas with
  | nil => rfl
  | cons d ds ih =>
      rcases hd : d.content with _ | s
      · simp only [streamFragments, providerFullText, List.filterMap_cons, List.map_cons,
          hd, Option.getD_none, concatFragments] at ih ⊢
        rw [string_empty_append]
        exact ih
      · simp only [streamFragments, providerFullText, List.filterMap_cons, List.map_cons,
          hd, Option.getD_some, concatFragments] at ih ⊢
        rw [ih]

/-- C7: every call to `llm_model_func` on a dispatcher with `M ≥ 1`
descriptors — for every behavior of the generation function, including
one that always raises — leaves the cursor advanced by exactly one
position modulo `M`, and the cursor stays below `M`. -/
theorem claim_C7 (gen : Nat → PyDict → Except PyError Val) (s : MultiModelState)
    (p sp hmsg : Val) (kw : PyDict) (hM : 0 < s.models.length) :
    (llm_model_func_exec gen s p sp hmsg kw).1 =
      { s with currentModel := (s.currentModel + 1) % s.models.length } ∧
    ((llm_model_func_exec gen s p sp hmsg kw).1).currentModel < s.models.length := by
  have h1 := llm_model_func_exec_fst gen s p sp hmsg kw
  rw [h1, llm_model_func_fst_of_pos _ _ _ _ _ hM]
  exact ⟨rfl, Nat.mod_lt _ hM⟩

/-- C7, witness: two descriptors, a generation function that always
raises; the cursor still advances from 0 to 1. -/
theorem claim_C7_witness :
    (llm_model_func_exec (fun _ _ => .error (.other "boom"))
        (init [⟨0, []⟩, ⟨1, []⟩]) .vNone .vNone .vNone []).1 =
      ⟨[⟨0, []⟩, ⟨1, []⟩], 1⟩ ∧
    ((llm_model_func_exec (fun _ _ => .error (.other "boom"))
        (init [⟨0, []⟩, ⟨1, []⟩]) .vNone .vNone .vNone []).1).currentModel < 2 :=
  claim_C7 (fun _ _ => .error (.other "boom")) (init [⟨0, []⟩, ⟨1, []⟩])
    .vNone .vNone .vNone [] (by decide)

/-- C10 (implicit claim): on a dispatcher constructed over the empty
descriptor list, every call to `llm_model_func` fails with
`ZeroDivisionError` from `(self._current_model + 1) % len(self._models)`
before any generation function is invoked: the result is the same for
every generation behavior, and no guard exists at construction or
dispatch time. -/
theorem claim_C10 (gen gen2 : Nat → PyDict → Except PyError Val)
    (p sp hmsg : Val) (kw : PyDict) :
    llm_model_func_exec gen (init []) p sp hmsg kw =
      (init [], .error (.dispatch .zeroDivision)) ∧
    llm_model_func_exec gen (init []) p sp hmsg kw =
      llm_model_func_exec gen2 (init []) p sp hmsg kw := by
  have h : ∀ g : Nat → PyDict → Except PyError Val,
      llm_model_func_exec g (init []) p sp hmsg kw =
        (init [], .error (.dispatch .zeroDivision)) := fun g => rfl
  exact ⟨h gen, (h gen).trans (h gen2).symm⟩

theorem applyEnvOverrides_apiKey (env : Env) (a b c : Option String) :
    (applyEnvOverrides env a b c).azureOpenaiApiKey =
      if pyTruthyStr a then a else env.azureOpenaiApiKey := by
  unfold applyEnvOverrides
  by_cases h1 : pyTruthyStr a <;> by_cases h2 : pyTruthyStr b <;>
    by_cases h3 : pyTruthyStr c <;> simp [h1, h2, h3]

theorem applyEnvOverrides_endpoint (env : Env) (a b c : Option String) :
    (applyEnvOverrides env a b c).azureOpenaiEndpoint =
      if pyTruthyStr b then b else env.azureOpenaiEndpoint := by
  unfold applyEnvOverrides
  by_cases h1 : pyTruthyStr a <;> by_cases h2 : pyTruthyStr b <;>
    by_cases h3 : pyTruthyStr c <;> simp [h1, h2, h3]

theorem applyEnvOverrides_apiVersion (env : Env) (a b c : Option String) :
    (applyEnvOverrides env a b c).azureOpenaiApiVersion =
      if pyTruthyStr c then c else env.azureOpenaiApiVersion := by
  unfold applyEnvOverrides
  by_cases h1 : pyTruthyStr a <;> by_cases h2 : pyTruthyStr b <;>
    by_cases h3 : pyTruthyStr c <;> simp [h1, h2, h3]

/-- C8: for each of `api_key`, `base_url`, `api_version`, supplying a
non-empty value overwrites the corresponding environment variable — the
write is in the returned post-call environment, which nothing restores —
and the client reads that value back; not supplying it leaves that
variable unchanged and the client reads the pre-call environment's
value. -/
theorem claim_C8 (env : Env) (api_key base_url api_version : Option String) :
    ((∀ s, api_key = some s → s ≠ "" →
        ((azureClientSetup env api_key base_url api_version).1).azureOpenaiApiKey = some s ∧
        ((azureClientSetup env api_key base_url api_version).2).apiKey = some s) ∧
      (api_key = none →
        ((azureClientSetup env api_key base_url api_version).1).azureOpenaiApiKey =
          env.azureOpenaiApiKey ∧
        ((azureClientSetup env api_key base_url api_version).2).apiKey =
          env.azureOpenaiApiKey)) ∧
    ((∀ s, base_url = some s → s ≠ "" →
        ((azureClientSetup env api_key base_url api_version).1).azureOpenaiEndpoint = some s ∧
        ((azureClientSetup env api_key base_url api_version).2).azureEndpoint = some s) ∧
      (base_url = none →
        ((azureClientSetup env api_key base_url api_version).1).azureOpenaiEndpoint =
          env.azureOpenaiEndpoint ∧
        ((azureClientSetup env api_key base_url api_version).2).azureEndpoint =
          env.azureOpenaiEndpoint)) ∧
    ((∀ s, api_version = some s → s ≠ "" →
        ((azureClientSetup env api_key base_url api_version).1).azureOpenaiApiVersion = some s ∧
        ((azureClientSetup env api_key base_url api_version).2).apiVersion = some s) ∧
      (api_version = none →
        ((azureClientSetup env api_key base_url api_version).1).azureOpenaiApiVersion =
          env.azureOpenaiApiVersion ∧
        ((azureClientSetup env api_key base_url api_version).2).apiVersion =
          env.azureOpenaiApiVersion)) := by
  refine ⟨⟨?_, ?_⟩, ⟨?_, ?_⟩, ⟨?_, ?_⟩⟩
  · rintro s rfl hs
    have ht : pyTruthyStr (some s) = true := by simp [pyTruthyStr, hs]
    constructor <;>
      simp [azureClientSetup, applyEnvOverrides_apiKey, ht]
  · rintro rfl
    have ht : pyTruthyStr none = false := rfl
    constructor <;>
      simp [azureClientSetup, applyEnvOverrides_apiKey, ht]
  · rintro s rfl hs
    have ht : pyTruthyStr (some s) = true := by simp [pyTruthyStr, hs]
    constructor <;>
      simp [azureClientSetup, applyEnvOverrides_endpoint, ht]
  · rintro rfl
    have ht : pyTruthyStr none = false := rfl
    constructor <;>
      simp [azureClientSetup, applyEnvOverrides_endpoint, ht]
  · rintro s rfl hs
    have ht : pyTruthyStr (some s) = true := by simp [pyTruthyStr, hs]
    constructor <;>
      simp [azureClientSetup, applyEnvOverrides_apiVersion, ht]
  · rintro rfl
    have ht : pyTruthyStr none = false := rfl
    constructor <;>
      simp [azureClientSetup, applyEnvOverrides_apiVersion, ht]

/-- C8, witness: starting from an environment holding `k0`/`e0`/`v0`,
supplying a new key and version (but no endpoint) overwrites exactly
those two variables and leaves the endpoint as it was. -/
theorem claim_C8_witness :
    ((azureClientSetup ⟨some "k0", some "e0", some "v0"⟩ (some "newk") none
        (some "newv")).1).azureOpenaiApiKey = some "newk" ∧
    ((azureClientSetup ⟨some "k0", some "e0", some "v0"⟩ (some "newk") none
        (some "newv")).1).azureOpenaiEndpoint = some "e0" ∧
    ((azureClientSetup ⟨some "k0", some "e0", some "v0"⟩ (some "newk") none
        (some "newv")).2).apiVersion = some "newv" :=
  ⟨((claim_C8 ⟨some "k0", some "e0", some "v0"⟩ (some "newk") none
      (some "newv")).1.1 "newk" rfl (by decide)).1,
   ((claim_C8 ⟨some "k0", some "e0", some "v0"⟩ (some "newk") none
      (some "newv")).2.1.2 rfl).1,
   ((claim_C8 ⟨some "k0", some "e0", some "v0"⟩ (some "newk") none
      (some "newv")).2.2.1 "newv" rfl (by decide)).2⟩

/-- C9: on a provider response carrying one embedding of the configured
dimension per input text, `azure_openai_embedding` returns a matrix with
exactly one row per input text, each row of length 1536. -/
theorem claim_C9 (texts : List String) (resp : EmbeddingResponse)
    (h1 : resp.data.length = texts.length)
    (h2 : ∀ d ∈ resp.data, d.embedding.length = embedding_dim) :
    (azure_openai_embedding_matrix resp).length = texts.length ∧
    ∀ row ∈ azure_openai_embedding_matrix resp, row.length = embedding_dim := by
  constructor
  · simp [azure_openai_embedding_matrix, h1]
  · intro row hrow
    simp only [azure_openai_embedding_matrix, List.mem_map] at hrow
    obtain ⟨d, hd, rfl⟩ := hrow
    exact h2 d hd

/-- C9, witness: 3 input texts, a response with 3 embeddings of length
1536: the matrix has 3 rows of width 1536. -/
theorem claim_C9_witness :
    (azure_openai_embedding_matrix
        ⟨[⟨List.replicate 1536 (0.0 : Float)⟩, ⟨List.replicate 1536 (0.0 : Float)⟩,
          ⟨List.replicate 1536 (0.0 : Float)⟩]⟩).length =
      (["a", "b", "c"] : List String).length ∧
    ∀ row ∈ azure_openai_embedding_matrix
        ⟨[⟨List.replicate 1536 (0.0 : Float)⟩, ⟨List.replicate 1536 (0.0 : Float)⟩,
          ⟨List.replicate 1536 (0.0 : Float)⟩]⟩,
      row.length = embedding_dim :=
  claim_C9 ["a", "b", "c"]
    ⟨[⟨List.replicate 1536 (0.0 : Float)⟩, ⟨List.replicate 1536 (0.0 : Float)⟩,
      ⟨List.replicate 1536 (0.0 : Float)⟩]⟩
    rfl
    (by
      intro d hd
      simp only [List.mem_cons, List.not_mem_nil, or_false] at hd
      rcases hd with rfl | rfl | rfl <;>
        · show (List.replicate 1536 (0.0 : Float)).length = embedding_dim
          rw [List.length_replicate]
          rfl)

end PathRAG
